import Mathlib

set_option autoImplicit false

/-!
Shallow embedding of the XLPostcards PostcardService backend
(src/PostcardService/main.py and src/PostcardService/app/services/*)
together with theorems settling the frozen specification claims.

Conventions of the embedding:
* Python strings are Lean `String`; helpers `pyStrip`, `pyUpper`, `pyLower`,
  `pySplitWs`, `pySplitLines` mirror `str.strip()`, `str.upper()`,
  `str.lower()`, `str.split()` and `str.split(sep)` on the ASCII inputs the
  service handles.
* Python `Optional[str] = ""` request fields are Lean `String`, with `""`
  playing the role of both the missing value and the empty string (truthiness
  via `pyTruthy`).
* Machine integers are `Nat` (amounts are cents, counters are nonnegative);
  `int(a * p / 100)` on nonnegative cent amounts is `Nat` division.
* Network calls (the Stannp vendor, Stripe, Cloudinary, image fetching) are
  abstracted as explicit function parameters so the control flow around them
  can be verified; fallible Python code becomes `Except String`.
* PIL images are modelled symbolically by `PImage`: pixel dimensions and the
  composition structure (which URL is fetched, cropped and pasted where) are
  tracked exactly; pixel contents are not.
-/

namespace XLPostcards

/-! ## Python string helpers -/

/-- Split a character list at every character satisfying `p`,
keeping empty segments (the semantics of Python `str.split(sep)`
applied pointwise). -/
def splitCharsOnP (p : Char → Bool) : List Char → List (List Char)
  | [] => [[]]
  | ch :: rest =>
    let r := splitCharsOnP p rest
    if p ch then [] :: r
    else
      match r with
      | h :: t => (ch :: h) :: t
      | [] => [[ch]]

/-- Python `s.split('\n')`: split on every newline, keeping empty segments. -/
def pySplitLines (s : String) : List String :=
  (splitCharsOnP (fun c => c = '\n') s.toList).map (fun cs => String.mk cs)

/-- Python `s.split()` with no argument: split on whitespace runs,
dropping empty segments. -/
def pySplitWs (s : String) : List String :=
  ((splitCharsOnP Char.isWhitespace s.toList).filter (· ≠ [])).map
    (fun cs => String.mk cs)

/-- Python `s.strip()`: remove leading and trailing whitespace. -/
def pyStrip (s : String) : String :=
  String.mk (((s.toList.dropWhile Char.isWhitespace).reverse.dropWhile
    Char.isWhitespace).reverse)

/-- Python `s.upper()` (ASCII). -/
def pyUpper (s : String) : String :=
  String.mk (s.toList.map Char.toUpper)

/-- Python `s.lower()` (ASCII). -/
def pyLower (s : String) : String :=
  String.mk (s.toList.map Char.toLower)

/-- Python truthiness of a string value. -/
def pyTruthy (s : String) : Bool := s ≠ ""

/-! ## Text-Flow Processor
`process_message_with_line_breaks` (src/PostcardService/main.py lines
894-933).  The width measurement `draw.textlength`, or its estimated
fallback, is the explicit parameter `widthFn`. -/

/-- One step of the inner word-wrap loop of
`process_message_with_line_breaks`: state is
(lines flushed so far, current line being accumulated). -/
def wrapStep (widthFn : String → Nat) (maxWidth : Nat)
    (st : List String × String) (word : String) : List String × String :=
  let acc := st.1
  let current := st.2
  let testLine := if pyTruthy current then pyStrip (current ++ " " ++ word) else word
  if widthFn testLine ≤ maxWidth then (acc, testLine)
  else if pyTruthy current then (acc ++ [current], word)
  else (acc, word)

/-- Word-wrap a single user line: the inner loop of
`process_message_with_line_breaks`, including the final flush of the
accumulated line. -/
def wrapUserLine (widthFn : String → Nat) (maxWidth : Nat) (line : String) :
    List String :=
  let st := (pySplitWs line).foldl (wrapStep widthFn maxWidth) ([], "")
  if pyTruthy st.2 then st.1 ++ [st.2] else st.1

/-- `process_message_with_line_breaks(message, max_width, font, draw)`:
split on user newlines first, preserve blank user lines as `""`,
word-wrap each non-blank user line. -/
def processMessageWithLineBreaks (widthFn : String → Nat) (maxWidth : Nat)
    (message : String) : List String :=
  (pySplitLines message).foldl
    (fun processed userLine =>
      if pyTruthy (pyStrip userLine) = false then processed ++ [""]
      else processed ++ wrapUserLine widthFn maxWidth userLine)
    []

/-! ## Print Submission Client
`submit_to_stannp_api` (src/PostcardService/main.py lines 1524-1641):
payload construction and the retry loop around the vendor HTTP call. -/

/-- Outcome of one HTTP call to the Stannp vendor, as seen by the retry
loop: a `requests` timeout, a connection error, a well-formed HTTP response
(status, body text, parsed `id` and `data.pdf` fields), or any other
exception. -/
inductive AttemptOutcome where
  | timeout (detail : String)
  | connError (detail : String)
  | httpResp (status : Nat) (text : String)
      (respId : Option String) (respPdf : Option String)
  | otherError (detail : String)
deriving Repr, DecidableEq

/-- Whether an attempt outcome is a network-level failure
(`requests.exceptions.Timeout` or `requests.exceptions.ConnectionError`),
the only outcomes the loop retries on. -/
def AttemptOutcome.isNetworkFailure : AttemptOutcome → Bool
  | .timeout _ => true
  | .connError _ => true
  | _ => false

/-- The parsed fields of a successful (HTTP 200) Stannp response that the
service reads: `result.get("id")` and `result.get("data", ..).get("pdf")`. -/
structure StannpResp where
  respId : Option String
  respPdf : Option String
deriving Repr, DecidableEq

/-- Trace of one run of the retry loop: the per-attempt timeouts used (in
seconds, one entry per vendor call actually made), the back-off waits
performed between attempts (in seconds), and the final result. -/
structure RetryTrace where
  timeouts : List Nat
  waits : List Nat
  result : Except String StannpResp
deriving Repr

/-- The `for attempt in range(3)` retry loop of `submit_to_stannp_api`:
per-attempt timeout `30 + attempt * 15`; HTTP 200 returns the parsed
response; any other well-formed HTTP response raises immediately with the
vendor text; timeouts and connection errors wait `5 * (attempt + 1)`
seconds and retry while `attempt < 2`, else raise; any other exception
raises immediately. -/
def stannpRetryLoop (vendor : Nat → AttemptOutcome) :
    List Nat → List Nat → List Nat → RetryTrace
  | [], tos, waits =>
    ⟨tos, waits, .error "Stannp submission failed after all retry attempts"⟩
  | attempt :: rest, tos, waits =>
    let timeoutSecs := 30 + attempt * 15
    let tos := tos ++ [timeoutSecs]
    match vendor attempt with
    | .httpResp status text rid rpdf =>
      if status = 200 then ⟨tos, waits, .ok ⟨rid, rpdf⟩⟩
      else
        ⟨tos, waits, .error ("Stannp submission failed: " ++ toString status
          ++ " - " ++ text)⟩
    | .timeout e =>
      if attempt < 2 then
        stannpRetryLoop vendor rest tos (waits ++ [5 * (attempt + 1)])
      else ⟨tos, waits, .error ("Stannp API timeout after 3 attempts: " ++ e)⟩
    | .connError e =>
      if attempt < 2 then
        stannpRetryLoop vendor rest tos (waits ++ [5 * (attempt + 1)])
      else
        ⟨tos, waits,
          .error ("Stannp API connection error after 3 attempts: " ++ e)⟩
    | .otherError e => ⟨tos, waits, .error ("Stannp API error: " ++ e)⟩

/-- Run the Stannp retry loop over `range(3)`. -/
def submitToStannpRetry (vendor : Nat → AttemptOutcome) : RetryTrace :=
  stannpRetryLoop vendor [0, 1, 2] [] []

/-! ## Vendor payloads (main path and app/services path) -/

/-- Recipient block of the request bodies (`Recipient` pydantic model).
The Python field `to` is `recipientTo` here because `to` is a Lean
keyword. -/
structure Recipient where
  recipientTo : String
  addressLine1 : String
  addressLine2 : String
  city : String
  state : String
  zipcode : String
deriving Repr, DecidableEq

/-- Recipient sub-object of the JSON payload built by
`submit_to_stannp_api` (main.py lines 1565-1574, with the empty `address2`
deleted at lines 1578-1580). -/
structure StannpPayloadRecipient where
  firstname : String
  lastname : String
  address1 : String
  address2 : Option String
  city : String
  state : String
  postcode : String
  country : String
deriving Repr, DecidableEq

/-- The Stannp JSON payload built by `submit_to_stannp_api`
(main.py lines 1557-1580). -/
structure StannpPayload where
  test : String
  size : String
  front : String
  back : String
  recipient : StannpPayloadRecipient
  clearzone : String
deriving Repr, DecidableEq

/-- A stored transaction (the value of `transaction_store[transaction_id]`
in main.py; created at lines 1348-1357, mutated by the payment and
submission endpoints). -/
structure Txn where
  frontUrl : String
  backUrl : String
  recipientInfo : Recipient
  message : String
  postcardSize : String
  status : String
  createdAt : String
  userEmail : String
  stripePaymentIntentId : Option String
  stannpId : Option String
deriving Repr, DecidableEq

/-- Payload construction of `submit_to_stannp_api` (main.py lines
1526-1580): missing API key and missing image URLs raise before any vendor
call; the `test` field is `"false"` exactly for `ENVIRONMENT=production`
(case-insensitive, default `development`); the recipient first name is
`recipient["to"].split()[0]` when `to` is truthy (an all-whitespace name
raises `IndexError`), else `"Recipient"`. -/
def buildStannpPayload (apiKeyPresent : Bool) (environment : Option String)
    (txn : Txn) : Except String StannpPayload := do
  if apiKeyPresent = false then
    throw "STANNP_API_KEY not configured"
  let recipient := txn.recipientInfo
  if txn.frontUrl = "" ∨ txn.backUrl = "" then
    throw "Missing image URLs"
  let environment := pyLower (environment.getD "development")
  let isTestMode := environment ≠ "production"
  let firstname ←
    if pyTruthy recipient.recipientTo then
      match pySplitWs recipient.recipientTo with
      | [] => throw "IndexError: list index out of range"
      | w :: _ => pure w
    else pure "Recipient"
  let lastname :=
    if 1 < (pySplitWs recipient.recipientTo).length then
      " ".intercalate (pySplitWs recipient.recipientTo).tail
    else ""
  let address2 :=
    if pyTruthy recipient.addressLine2 then some recipient.addressLine2
    else none
  pure
    { test := if isTestMode then "true" else "false"
      size := if txn.postcardSize = "xl" then "6x9" else "4x6"
      front := txn.frontUrl
      back := txn.backUrl
      recipient :=
        { firstname := firstname
          lastname := lastname
          address1 := recipient.addressLine1
          address2 := address2
          city := recipient.city
          state := recipient.state
          postcode := recipient.zipcode
          country := "US" }
      clearzone := "true" }

/-- `submit_to_stannp_api(txn)` (main.py lines 1524-1641): build the
payload, then run the retry loop against the vendor.  The vendor is a
function of the payload and the attempt index. -/
def submitToStannpApi (apiKeyPresent : Bool) (environment : Option String)
    (vendor : StannpPayload → Nat → AttemptOutcome) (txn : Txn) :
    Except String StannpResp :=
  match buildStannpPayload apiKeyPresent environment txn with
  | .error e => .error e
  | .ok payload => (submitToStannpRetry (vendor payload)).result

/-- A stored row of the `postcard_transactions` table used by
`submit_to_stannp_with_transaction_data`
(src/PostcardService/app/services/postcard_service.py); `or ""` guards in
that code collapse SQL NULLs to `""`. -/
structure PostcardTransactionRecord where
  recipientName : String
  recipientAddressLine1 : String
  recipientAddressLine2 : String
  recipientCity : String
  recipientState : String
  recipientZipcode : String
  postcardSize : String
  frontUrl : String
  backUrl : String
  userEmail : String
deriving Repr, DecidableEq

/-- The form-encoded Stannp payload built by
`submit_to_stannp_with_transaction_data`
(app/services/postcard_service.py lines 45-86): fixed fields plus the
`recipient[...]` form fields in insertion order.  The `test` field is the
literal `"true"` (line 80). -/
structure ServiceStannpData where
  test : String
  size : String
  front : String
  back : String
  clearzone : String
  recipientFields : List (String × String)
deriving Repr, DecidableEq

/-- Payload construction of `submit_to_stannp_with_transaction_data`
(app/services/postcard_service.py lines 45-86). -/
def buildServiceStannpData (rec : PostcardTransactionRecord) :
    ServiceStannpData :=
  let nameParts := pySplitWs (pyStrip rec.recipientName)
  let base :=
    [("recipient[address1]", rec.recipientAddressLine1),
     ("recipient[city]", rec.recipientCity),
     ("recipient[postcode]", rec.recipientZipcode),
     ("recipient[country]", "US")]
  let withFirst :=
    match nameParts with
    | [] => base
    | w :: _ => base ++ [("recipient[firstname]", w)]
  let withLast :=
    if 2 ≤ nameParts.length then
      withFirst ++ [("recipient[lastname]", " ".intercalate nameParts.tail)]
    else withFirst
  let withAddr2 :=
    if pyTruthy rec.recipientAddressLine2 then
      withLast ++ [("recipient[address2]", rec.recipientAddressLine2)]
    else withLast
  let withState :=
    if pyTruthy rec.recipientState then
      withAddr2 ++ [("recipient[state]", rec.recipientState)]
    else withAddr2
  { test := "true"
    size :=
      if rec.postcardSize = "6x9" ∨ rec.postcardSize = "xl" then "6x9"
      else if rec.postcardSize = "4x6" ∨ rec.postcardSize = "regular" then "4x6"
      else "4x6"
    front := rec.frontUrl
    back := rec.backUrl
    clearzone := "true"
    recipientFields := withState }

/-- The test-mode flag the specification requires on every vendor payload:
`"false"` exactly when the configured environment is production. -/
def specTestFlag (environment : Option String) : String :=
  if pyLower (environment.getD "development") = "production" then "false"
  else "true"

/-! ## Transaction store and the print-submission / free-postcard endpoints -/

/-- The process-wide `transaction_store` dict, keyed by transaction id. -/
def Store := List (String × Txn)

/-- Dict lookup `transaction_store.get(tid)`. -/
def storeFind : Store → String → Option Txn
  | [], _ => none
  | (k, v) :: rest, tid => if k = tid then some v else storeFind rest tid

/-- Dict assignment `transaction_store[tid] = txn` (replace or insert). -/
def storeSet : Store → String → Txn → Store
  | [], tid, txn => [(tid, txn)]
  | (k, v) :: rest, tid, txn =>
    if k = tid then (k, txn) :: rest else (k, v) :: storeSet rest tid txn

/-- Result of a FastAPI endpoint call: a JSON success body or an
`HTTPException` with a status code and detail string. -/
inductive EndpointResult where
  | ok (status : String) (stannpId : Option String)
  | httpError (code : Nat) (detail : String)
deriving Repr, DecidableEq

/-- The `/submit-to-stannp` endpoint `submit_to_stannp`
(main.py lines 1450-1522), including its `except Exception` handler.
`HTTPException` is a subclass of `Exception`, so the handler also catches
the 404 raised for an unknown transaction and the 400 raised by the
payment-status guard; when the transaction exists it sends the failure
notifications, sets the stored status to `"failed"` and re-raises a 500.
Email dispatch is fire-and-forget I/O and is not modelled. -/
def submitToStannpEndpoint (apiKeyPresent : Bool) (environment : Option String)
    (vendor : StannpPayload → Nat → AttemptOutcome) (store : Store)
    (tid : String) : Store × EndpointResult :=
  match storeFind store tid with
  | none => (store, .httpError 500 "404: Transaction not found")
  | some txn =>
    if txn.status ≠ "payment_confirmed" then
      (storeSet store tid { txn with status := "failed" },
       .httpError 500 "400: Payment not confirmed")
    else
      match submitToStannpApi apiKeyPresent environment vendor txn with
      | .ok resp =>
        let sid := resp.respId.getD ("stannp_" ++ tid)
        (storeSet store tid
          { txn with status := "submitted_to_stannp", stannpId := some sid },
         .ok "submitted_to_stannp" (some sid))
      | .error e =>
        (storeSet store tid { txn with status := "failed" },
         .httpError 500 e)

/-- The store update performed by `/generate-complete-postcard`
(main.py lines 1339-1357): preserve an existing email when the request
email is falsy (`final_email = request.userEmail or existing_email`). -/
def generateStoreUpdate (store : Store) (tid userEmail frontUrl backUrl : String)
    (recip : Recipient) (msg size now : String) : Store :=
  let existingEmail :=
    match storeFind store tid with
    | some t => t.userEmail
    | none => ""
  let finalEmail := if pyTruthy userEmail then userEmail else existingEmail
  storeSet store tid
    { frontUrl := frontUrl
      backUrl := backUrl
      recipientInfo := recip
      message := msg
      postcardSize := size
      status := "ready_for_payment"
      createdAt := now
      userEmail := finalEmail
      stripePaymentIntentId := none
      stannpId := none }

/-- The store update performed by `/payment-confirmed`
(main.py lines 1427-1444): idempotent status set; the stored email is
updated only when no email is stored yet and the request provides one. -/
def paymentConfirmedStoreUpdate (store : Store) (tid paymentIntentId userEmail : String) :
    Store × EndpointResult :=
  match storeFind store tid with
  | none => (store, .httpError 404 "Transaction not found")
  | some txn =>
    let existingEmail := txn.userEmail
    let newEmail :=
      if pyTruthy existingEmail = false ∧ pyTruthy userEmail then userEmail
      else existingEmail
    (storeSet store tid
      { txn with status := "payment_confirmed",
                 stripePaymentIntentId := some paymentIntentId,
                 userEmail := newEmail },
     .ok "payment_confirmed" none)

/-- The `/process-free-postcard` flow `process_free_postcard`
(main.py lines 2458-2597) after a successful 100%-promo validation and a
successful generation: it calls `generate_complete_postcard` (which
preserves a sticky stored email), then at lines 2569-2573 marks the
transaction `payment_confirmed` and sets
`transaction_store[tid]["userEmail"] = request.userEmail or ""`
unconditionally, then submits to Stannp. -/
def processFreePostcardStore (apiKeyPresent : Bool) (environment : Option String)
    (vendor : StannpPayload → Nat → AttemptOutcome) (store : Store)
    (tid userEmail frontUrl backUrl : String) (recip : Recipient)
    (msg size now : String) : Store × EndpointResult :=
  let store1 := generateStoreUpdate store tid userEmail frontUrl backUrl recip msg size now
  let store2 :=
    match storeFind store1 tid with
    | some t =>
      storeSet store1 tid
        { t with status := "payment_confirmed",
                 stripePaymentIntentId := some "FREE_PROMO",
                 userEmail := userEmail }
    | none => store1
  submitToStannpEndpoint apiKeyPresent environment vendor store2 tid

/-! ## Template Selector + Compositing Engine
`TemplateEngine` (main.py lines 21-435; duplicated in
app/services/template_engine.py with the same dispatch and fallback).
Images are symbolic: dimensions and composition structure are exact,
pixel contents are not. -/

/-- Symbolic PIL image.  `fetched url dims` is the result of
`_load_image_from_url`: `dims = some (w, h)` when the fetch and decode
succeed, `none` when they fail and the 400x400 light-gray placeholder is
returned instead.  `blank` is `Image.new`, `cropResized` is
`_resize_and_crop` to an exact target size, `pasted` is a canvas with its
sequence of `paste` calls (overlay, x, y). -/
inductive PImage where
  | fetched (url : String) (dims : Option (Nat × Nat))
  | blank (w h : Nat) (color : String)
  | cropResized (src : PImage) (w h : Nat)
  | pasted (base : PImage) (overlays : List (PImage × Nat × Nat))

/-- Pixel width of a symbolic image. -/
def PImage.width : PImage → Nat
  | .fetched _ dims => (dims.getD (400, 400)).1
  | .blank w _ _ => w
  | .cropResized _ w _ => w
  | .pasted base _ => base.width

/-- Pixel height of a symbolic image. -/
def PImage.height : PImage → Nat
  | .fetched _ dims => (dims.getD (400, 400)).2
  | .blank _ h _ => h
  | .cropResized _ _ h => h
  | .pasted base _ => base.height

/-- The URL an image was fetched from, looking through crops and resizes. -/
def PImage.srcUrl : PImage → Option String
  | .fetched u _ => some u
  | .cropResized s _ _ => s.srcUrl
  | _ => none

/-- The fetch URLs of the top-level overlays of a composited canvas, in
paste order. -/
def PImage.overlayUrls : PImage → List String
  | .pasted _ overlays => overlays.filterMap (fun o => o.1.srcUrl)
  | _ => []

/-- The engine canvas size chosen by `TemplateEngine.__init__`:
`XL_SIZE = (2700, 1800)` for `"xl"`, else `REGULAR_SIZE = (1800, 1200)`. -/
def engineSize (postcardSize : String) : Nat × Nat :=
  if postcardSize = "xl" then (2700, 1800) else (1800, 1200)

/-- `_load_image_from_url`: fetch/decode, or the 400x400 placeholder on
failure.  `env` gives the pixel dimensions of a successfully loaded URL,
`none` meaning the load fails. -/
def loadImageFromUrl (env : String → Option (Nat × Nat)) (url : String) :
    PImage :=
  PImage.fetched url (env url)

/-- `_resize_and_crop`: center-crop to the target aspect ratio, then resize
to the exact target size.  The crop interior is not represented; the output
dimensions are exactly the target. -/
def resizeAndCrop (image : PImage) (targetW targetH : Nat) : PImage :=
  .cropResized image targetW targetH

/-- `_apply_single_photo`. -/
def applySinglePhoto (size : Nat × Nat) (env : String → Option (Nat × Nat))
    (imageUrl : String) : PImage :=
  resizeAndCrop (loadImageFromUrl env imageUrl) size.1 size.2

/-- `_apply_two_side_by_side` (gap 20). -/
def applyTwoSideBySide (size : Nat × Nat) (env : String → Option (Nat × Nat))
    (leftUrl rightUrl : String) : PImage :=
  let gap := 20
  let photoWidth := (size.1 - gap) / 2
  .pasted (.blank size.1 size.2 "white")
    [(resizeAndCrop (loadImageFromUrl env leftUrl) photoWidth size.2, 0, 0),
     (resizeAndCrop (loadImageFromUrl env rightUrl) photoWidth size.2,
      photoWidth + gap, 0)]

/-- `_apply_three_photos` (large left half, two stacked right). -/
def applyThreePhotos (size : Nat × Nat) (env : String → Option (Nat × Nat))
    (leftUrl topRightUrl bottomRightUrl : String) : PImage :=
  let gap := 20
  let leftWidth := size.1 / 2 - gap / 2
  let rightWidth := size.1 / 2 - gap / 2
  let rightHeight := (size.2 - gap) / 2
  .pasted (.blank size.1 size.2 "white")
    [(resizeAndCrop (loadImageFromUrl env leftUrl) leftWidth size.2, 0, 0),
     (resizeAndCrop (loadImageFromUrl env topRightUrl) rightWidth rightHeight,
      leftWidth + gap, 0),
     (resizeAndCrop (loadImageFromUrl env bottomRightUrl) rightWidth rightHeight,
      leftWidth + gap, rightHeight + gap)]

/-- `_apply_four_quarters`: re-checks the photo count, then composites
`image_urls[:4]` into the four quarter cells (gap 20). -/
def applyFourQuarters (size : Nat × Nat) (env : String → Option (Nat × Nat))
    (imageUrls : List String) : Except String PImage :=
  if imageUrls.length < 4 then
    .error "Four quarters template requires exactly 4 images"
  else
    let gap := 20
    let quarterWidth := (size.1 - gap) / 2
    let quarterHeight := (size.2 - gap) / 2
    let images := (imageUrls.take 4).map
      (fun url => resizeAndCrop (loadImageFromUrl env url) quarterWidth quarterHeight)
    let positions : List (Nat × Nat) :=
      [(0, 0), (quarterWidth + gap, 0), (0, quarterHeight + gap),
       (quarterWidth + gap, quarterHeight + gap)]
    .ok (.pasted (.blank size.1 size.2 "white")
      ((images.zip positions).map (fun ip => (ip.1, ip.2.1, ip.2.2))))

/-- `_apply_two_vertical` (gap 20). -/
def applyTwoVertical (size : Nat × Nat) (env : String → Option (Nat × Nat))
    (topUrl bottomUrl : String) : PImage :=
  let gap := 20
  let photoHeight := (size.2 - gap) / 2
  .pasted (.blank size.1 size.2 "white")
    [(resizeAndCrop (loadImageFromUrl env topUrl) size.1 photoHeight, 0, 0),
     (resizeAndCrop (loadImageFromUrl env bottomUrl) size.1 photoHeight,
      0, photoHeight + gap)]

/-- `_apply_five_collage`: four background quarters plus a bordered center
overlay at 70% of a quarter (`int(q * 0.7)` is `q * 7 / 10` on the exact
canvas values arising here). -/
def applyFiveCollage (size : Nat × Nat) (env : String → Option (Nat × Nat))
    (imageUrls : List String) : Except String PImage :=
  if imageUrls.length < 5 then
    .error "Five collage template requires exactly 5 images"
  else
    match imageUrls with
    | u0 :: u1 :: u2 :: u3 :: u4 :: _ =>
      let gap := 20
      let quarterWidth := (size.1 - gap) / 2
      let quarterHeight := (size.2 - gap) / 2
      let quarters := ([u0, u1, u2, u3]).map
        (fun url => resizeAndCrop (loadImageFromUrl env url) quarterWidth quarterHeight)
      let positions : List (Nat × Nat) :=
        [(0, 0), (quarterWidth + gap, 0), (0, quarterHeight + gap),
         (quarterWidth + gap, quarterHeight + gap)]
      let centerW := quarterWidth * 7 / 10
      let centerH := quarterHeight * 7 / 10
      let borderWidth := 8
      let borderedW := centerW + borderWidth * 2
      let borderedH := centerH + borderWidth * 2
      let bordered : PImage :=
        .pasted (.blank borderedW borderedH "white")
          [(resizeAndCrop (loadImageFromUrl env u4) centerW centerH,
            borderWidth, borderWidth)]
      .ok (.pasted (.blank size.1 size.2 "white")
        (((quarters.zip positions).map (fun ip => (ip.1, ip.2.1, ip.2.2))) ++
         [(bordered, (size.1 - borderedW) / 2, (size.2 - borderedH) / 2)]))
    | _ => .error "Five collage template requires exactly 5 images"

/-- `_apply_six_grid`: 2 rows by 3 columns, gap 15, `image_urls[:6]`. -/
def applySixGrid (size : Nat × Nat) (env : String → Option (Nat × Nat))
    (imageUrls : List String) : Except String PImage :=
  if imageUrls.length < 6 then
    .error "Six grid template requires exactly 6 images"
  else
    let gap := 15
    let cellWidth := (size.1 - 2 * gap) / 3
    let cellHeight := (size.2 - gap) / 2
    let images := (imageUrls.take 6).map
      (fun url => resizeAndCrop (loadImageFromUrl env url) cellWidth cellHeight)
    let positions : List (Nat × Nat) :=
      [(0, 0), (cellWidth + gap, 0), ((cellWidth + gap) * 2, 0),
       (0, cellHeight + gap), (cellWidth + gap, cellHeight + gap),
       ((cellWidth + gap) * 2, cellHeight + gap)]
    .ok (.pasted (.blank size.1 size.2 "white")
      ((images.zip positions).map (fun ip => (ip.1, ip.2.1, ip.2.2))))

/-- `_apply_three_horizontal` (gap 15, three equal columns). -/
def applyThreeHorizontal (size : Nat × Nat) (env : String → Option (Nat × Nat))
    (leftUrl centerUrl rightUrl : String) : PImage :=
  let gap := 15
  let photoWidth := (size.1 - 2 * gap) / 3
  .pasted (.blank size.1 size.2 "white")
    [(resizeAndCrop (loadImageFromUrl env leftUrl) photoWidth size.2, 0, 0),
     (resizeAndCrop (loadImageFromUrl env centerUrl) photoWidth size.2,
      photoWidth + gap, 0),
     (resizeAndCrop (loadImageFromUrl env rightUrl) photoWidth size.2,
      (photoWidth + gap) * 2, 0)]

/-- `_apply_three_bookmarks` (gap 15, three full-width strips). -/
def applyThreeBookmarks (size : Nat × Nat) (env : String → Option (Nat × Nat))
    (topUrl middleUrl bottomUrl : String) : PImage :=
  let gap := 15
  let photoHeight := (size.2 - 2 * gap) / 3
  .pasted (.blank size.1 size.2 "white")
    [(resizeAndCrop (loadImageFromUrl env topUrl) size.1 photoHeight, 0, 0),
     (resizeAndCrop (loadImageFromUrl env middleUrl) size.1 photoHeight,
      0, photoHeight + gap),
     (resizeAndCrop (loadImageFromUrl env bottomUrl) size.1 photoHeight,
      0, (photoHeight + gap) * 2)]

/-- `_apply_three_sideways` (gap 15; `int(h * 0.4)` is `h * 4 / 10` on the
exact canvas heights 1800 and 1200). -/
def applyThreeSideways (size : Nat × Nat) (env : String → Option (Nat × Nat))
    (topUrl bottomLeftUrl bottomRightUrl : String) : PImage :=
  let gap := 15
  let topHeight := size.2 * 4 / 10
  let bottomHeight := size.2 - topHeight - gap
  let bottomWidth := (size.1 - gap) / 2
  .pasted (.blank size.1 size.2 "white")
    [(resizeAndCrop (loadImageFromUrl env topUrl) size.1 topHeight, 0, 0),
     (resizeAndCrop (loadImageFromUrl env bottomLeftUrl) bottomWidth bottomHeight,
      0, topHeight + gap),
     (resizeAndCrop (loadImageFromUrl env bottomRightUrl) bottomWidth bottomHeight,
      bottomWidth + gap, topHeight + gap)]

/-- `TemplateEngine.apply_template` (main.py lines 73-130): dispatch on the
template type with per-template photo-count validation; unknown types fall
through to `_apply_single_photo(image_urls[0])`, which raises `IndexError`
on an empty list. -/
def applyTemplate (size : Nat × Nat) (env : String → Option (Nat × Nat))
    (templateType : String) (imageUrls : List String) :
    Except String PImage :=
  if templateType = "single" then
    if h : imageUrls.length < 1 then .error "Single template requires 1 image"
    else .ok (applySinglePhoto size env imageUrls[0])
  else if templateType = "two_side_by_side" then
    if h : imageUrls.length < 2 then
      .error "Two side-by-side template requires 2 images"
    else .ok (applyTwoSideBySide size env imageUrls[0] imageUrls[1])
  else if templateType = "three_photos" then
    if h : imageUrls.length < 3 then
      .error "Three photos template requires 3 images"
    else .ok (applyThreePhotos size env imageUrls[0] imageUrls[1] imageUrls[2])
  else if templateType = "four_quarters" then
    if imageUrls.length < 4 then
      .error "Four quarters template requires 4 images"
    else applyFourQuarters size env imageUrls
  else if templateType = "two_vertical" then
    if h : imageUrls.length < 2 then
      .error "Two vertical template requires 2 images"
    else .ok (applyTwoVertical size env imageUrls[0] imageUrls[1])
  else if templateType = "five_collage" then
    if imageUrls.length < 5 then
      .error "Five collage template requires 5 images"
    else applyFiveCollage size env imageUrls
  else if templateType = "six_grid" then
    if imageUrls.length < 6 then
      .error "Six grid template requires 6 images"
    else applySixGrid size env imageUrls
  else if templateType = "three_horizontal" then
    if h : imageUrls.length < 3 then
      .error "Three horizontal template requires 3 images"
    else
      .ok (applyThreeHorizontal size env imageUrls[0] imageUrls[1] imageUrls[2])
  else if templateType = "three_bookmarks" then
    if h : imageUrls.length < 3 then
      .error "Three bookmarks template requires 3 images"
    else
      .ok (applyThreeBookmarks size env imageUrls[0] imageUrls[1] imageUrls[2])
  else if templateType = "three_sideways" then
    if h : imageUrls.length < 3 then
      .error "Three sideways template requires 3 images"
    else
      .ok (applyThreeSideways size env imageUrls[0] imageUrls[1] imageUrls[2])
  else
    match imageUrls with
    | [] => .error "IndexError: list index out of range"
    | u :: _ => .ok (applySinglePhoto size env u)

/-- The named template types `apply_template` dispatches on. -/
def knownTemplateTypes : List String :=
  ["single", "two_side_by_side", "three_photos", "four_quarters",
   "two_vertical", "five_collage", "six_grid", "three_horizontal",
   "three_bookmarks", "three_sideways"]

/-- Back-canvas dimensions chosen by `/generate-complete-postcard`
(main.py lines 1060-1064): 1800x1200 for `"regular"`, else 2754x1872. -/
def backCanvasDims (postcardSize : String) : Nat × Nat :=
  if postcardSize = "regular" then (1800, 1200) else (2754, 1872)

/-! ## Promotional Code Subsystem
`/validate-promo-code` (main.py lines 2328-2456). -/

/-- A `coupon_codes` row (main.py lines 513-529).  Timestamps are `Nat`
(seconds since the epoch); `expiresAt = none` is SQL NULL. -/
structure CouponCodeRow where
  couponId : Nat
  campaignId : Nat
  code : String
  maxRedemptions : Nat
  timesRedeemed : Nat
  expiresAt : Option Nat
  isActive : Bool
deriving Repr, DecidableEq

/-- A `coupon_campaigns` row (main.py lines 498-511), restricted to the
fields `validate_promo_code` reads. -/
structure CouponCampaignRow where
  campaignId : Nat
  discountPercent : Nat
deriving Repr, DecidableEq

/-- The local relational tables `validate_promo_code` consults. -/
structure CouponDb where
  coupons : List CouponCodeRow
  campaigns : List CouponCampaignRow
deriving Repr, DecidableEq

/-- Result of `/validate-promo-code` as read by its callers. -/
inductive ValidateResult where
  | valid (code : String) (discountPercent : Nat) (message : String)
      (remainingUses : Nat)
  | invalid (message : String)
deriving Repr, DecidableEq

/-- `validate_promo_code(request)` (main.py lines 2328-2456): normalize the
code (`strip().upper()`); empty codes are invalid; without a database
session, or when the normalized code has no active local row, fall back to
the Stripe lookup (`stripeFallback`, the abstracted external gateway);
otherwise reject expired codes (`utcnow() > expires_at`), then exhausted
codes (`times_redeemed >= max_redemptions`), and on success return the
owning campaign discount percent (default 100 when the campaign row is
missing). -/
def validatePromoCode (dbAvailable : Option CouponDb)
    (stripeFallback : String → ValidateResult) (now : Nat) (rawCode : String) :
    ValidateResult :=
  let code := pyUpper (pyStrip rawCode)
  if code = "" then .invalid "Please enter a promo code"
  else
    match dbAvailable with
    | none => stripeFallback code
    | some db =>
      match db.coupons.find? (fun c => c.code = code ∧ c.isActive) with
      | none => stripeFallback code
      | some dbCoupon =>
        if (match dbCoupon.expiresAt with
            | some e => decide (e < now)
            | none => false) then
          .invalid "This promo code has expired"
        else if dbCoupon.maxRedemptions ≤ dbCoupon.timesRedeemed then
          .invalid "This promo code has reached its usage limit"
        else
          let discountPercent :=
            ((db.campaigns.find?
                (fun camp => camp.campaignId = dbCoupon.campaignId)).map
              (fun camp => camp.discountPercent)).getD 100
          .valid code discountPercent
            ("Promo code applied! " ++ toString discountPercent ++
             "% off your postcard.")
            (dbCoupon.maxRedemptions - dbCoupon.timesRedeemed)

/-! ## Payment-intent amount computation
`/create-payment-intent` (main.py lines 1881-1937). -/

/-- The charge amount computed by `create_payment_intent` (main.py lines
1893-1914): when a promo code is present and `discount_percent > 0`,
subtract `int(original_amount * discount_percent / 100)` and clamp the
result up to the Stripe minimum of 50 cents.  Amounts are cents
(nonnegative), so `int(..)` is `Nat` floor division. -/
def createPaymentIntentAmount (originalAmount : Nat) (promoCode : String)
    (discountPercent : Nat) : Nat :=
  if pyTruthy promoCode ∧ 0 < discountPercent then
    let discountAmount := originalAmount * discountPercent / 100
    let finalAmount := originalAmount - discountAmount
    if finalAmount < 50 then 50 else finalAmount
  else originalAmount

/-! ## Concrete fixtures used to evaluate the endpoints -/

/-- A concrete recipient. -/
def sampleRecipient : Recipient :=
  { recipientTo := "Jane Doe"
    addressLine1 := "1 Main St"
    addressLine2 := ""
    city := "Springfield"
    state := "IL"
    zipcode := "62704" }

/-- A stored transaction that has been generated but not yet paid
(`status = "ready_for_payment"`). -/
def txnReadyForPayment : Txn :=
  { frontUrl := "https://img.example/front.jpg"
    backUrl := "https://img.example/back.jpg"
    recipientInfo := sampleRecipient
    message := "Hi"
    postcardSize := "xl"
    status := "ready_for_payment"
    createdAt := "2026-01-01T00:00:00"
    userEmail := "alice@example.com"
    stripePaymentIntentId := none
    stannpId := none }

/-- A vendor that accepts every submission on the first attempt. -/
def vendorAlwaysOk : StannpPayload → Nat → AttemptOutcome :=
  fun _ _ => .httpResp 200 "ok" (some "stannp-123") (some "https://pdf.example/p.pdf")

/-- A concrete stored `postcard_transactions` row. -/
def sampleTransactionRecord : PostcardTransactionRecord :=
  { recipientName := "Jane Doe"
    recipientAddressLine1 := "1 Main St"
    recipientAddressLine2 := ""
    recipientCity := "Springfield"
    recipientState := "IL"
    recipientZipcode := "62704"
    postcardSize := "xl"
    frontUrl := "https://img.example/front.jpg"
    backUrl := "https://img.example/back.jpg"
    userEmail := "alice@example.com" }

/-- The main-path payload built for `txnReadyForPayment` in production. -/
def prodPayload : StannpPayload :=
  { test := "false"
    size := "6x9"
    front := "https://img.example/front.jpg"
    back := "https://img.example/back.jpg"
    recipient :=
      { firstname := "Jane"
        lastname := "Doe"
        address1 := "1 Main St"
        address2 := none
        city := "Springfield"
        state := "IL"
        postcode := "62704"
        country := "US" }
    clearzone := "true" }

/-!
# Theorems
-/

/-- Folding an append-only accumulator is concatenation of the per-element
contributions. -/
theorem foldl_append_eq_flatMap {α β : Type} (g : α → List β) :
    ∀ (ls : List α) (acc : List β),
      ls.foldl (fun acc l => acc ++ g l) acc = acc ++ ls.flatMap g := by
  intro ls
  induction ls with
  | nil => intro acc; simp
  | cons h t ih => intro acc; simp [ih]

/-- The processor handles each user line independently, in order. -/
theorem processMessage_eq_flatMap (widthFn : String → Nat) (maxWidth : Nat)
    (message : String) :
    processMessageWithLineBreaks widthFn maxWidth message =
      (pySplitLines message).flatMap
        (fun userLine =>
          if pyTruthy (pyStrip userLine) = false then [""]
          else wrapUserLine widthFn maxWidth userLine) := by
  unfold processMessageWithLineBreaks
  rw [show (fun (processed : List String) (userLine : String) =>
      if pyTruthy (pyStrip userLine) = false then processed ++ [""]
      else processed ++ wrapUserLine widthFn maxWidth userLine) =
      (fun processed userLine => processed ++
        (if pyTruthy (pyStrip userLine) = false then [""]
         else wrapUserLine widthFn maxWidth userLine)) from ?_]
  · exact (foldl_append_eq_flatMap _ _ []).trans (by simp)
  · funext processed userLine
    by_cases h : pyTruthy (pyStrip userLine) = false <;> simp [h]

/-- C5: the text-flow processor splits the message on user newlines first
and preserves every empty user line as an empty output line; in
particular, wrapping `"Hello\n\nWorld"` with a max width at least the
width of either word yields exactly the lines `"Hello"`, `""`,
`"World"`. -/
theorem textflow_preserves_blank_lines :
    (∀ (widthFn : String → Nat) (maxWidth : Nat) (message : String),
      processMessageWithLineBreaks widthFn maxWidth message =
        (pySplitLines message).flatMap
          (fun userLine =>
            if pyTruthy (pyStrip userLine) = false then [""]
            else wrapUserLine widthFn maxWidth userLine)) ∧
    (∀ (widthFn : String → Nat) (maxWidth : Nat),
      widthFn "Hello" ≤ maxWidth → widthFn "World" ≤ maxWidth →
      processMessageWithLineBreaks widthFn maxWidth "Hello\n\nWorld" =
        ["Hello", "", "World"]) := by
  refine ⟨processMessage_eq_flatMap, ?_⟩
  intro widthFn maxWidth hH hW
  have h1 : pySplitLines "Hello\n\nWorld" = ["Hello", "", "World"] := by decide
  rw [processMessage_eq_flatMap, h1]
  simp [wrapUserLine, wrapStep, pyTruthy, pyStrip, pySplitWs, splitCharsOnP,
    hH, hW]

/-- C5 witness: the concrete wrap of `"Hello\n\nWorld"` with character-count
width measurement and budget 100. -/
theorem textflow_preserves_blank_lines_witness :
    String.length "Hello" ≤ 100 ∧ String.length "World" ≤ 100 ∧
    processMessageWithLineBreaks String.length 100 "Hello\n\nWorld" =
      ["Hello", "", "World"] :=
  ⟨by decide, by decide,
    textflow_preserves_blank_lines.2 String.length 100 (by decide) (by decide)⟩

/-- C10: with a promo code present and a positive discount percent, the
payment-intent amount is the discounted amount clamped up to the 50-cent
Stripe minimum, `max (original - floor(original * percent / 100)) 50`; a
100%-off code still charges 50 cents, never zero. -/
theorem payment_intent_minimum_clamp :
    ∀ (originalAmount : Nat) (promoCode : String) (discountPercent : Nat),
      pyTruthy promoCode = true → 0 < discountPercent →
      createPaymentIntentAmount originalAmount promoCode discountPercent =
        max (originalAmount - originalAmount * discountPercent / 100) 50 ∧
      50 ≤ createPaymentIntentAmount originalAmount promoCode discountPercent ∧
      (discountPercent = 100 →
        createPaymentIntentAmount originalAmount promoCode discountPercent = 50) := by
  intro a p d hp hd
  have hcond : (pyTruthy p ∧ 0 < d) := ⟨hp, hd⟩
  refine ⟨?_, ?_, ?_⟩
  · simp only [createPaymentIntentAmount, if_pos hcond]
    split_ifs <;> omega
  · simp only [createPaymentIntentAmount, if_pos hcond]
    split_ifs <;> omega
  · intro h100
    subst h100
    simp only [createPaymentIntentAmount, if_pos hcond]
    split_ifs <;> omega

/-- C10 witness: a 100%-off promo on the 199-cent price charges exactly 50
cents. -/
theorem payment_intent_minimum_clamp_witness :
    pyTruthy "FREE100" = true ∧ 0 < 100 ∧
    createPaymentIntentAmount 199 "FREE100" 100 = 50 :=
  ⟨by decide, by decide,
    (payment_intent_minimum_clamp 199 "FREE100" 100 (by decide) (by decide)).2.2
      rfl⟩

/-- C3: the print-submission retry loop makes at most 3 vendor attempts
with per-attempt timeouts 30s, 45s, 60s and back-off waits 5s then 10s; it
retries only after a network-level timeout or connection failure; a
well-formed non-200 HTTP response is terminal and surfaces the vendor
text; and after 3 consecutive timeouts it raises without a 4th attempt. -/
theorem stannp_retry_policy :
    (∀ vendor : Nat → AttemptOutcome,
      (vendor 0).isNetworkFailure = false →
      (submitToStannpRetry vendor).timeouts = [30] ∧
      (submitToStannpRetry vendor).waits = []) ∧
    (∀ vendor : Nat → AttemptOutcome,
      (vendor 0).isNetworkFailure = true →
      (vendor 1).isNetworkFailure = false →
      (submitToStannpRetry vendor).timeouts = [30, 45] ∧
      (submitToStannpRetry vendor).waits = [5]) ∧
    (∀ vendor : Nat → AttemptOutcome,
      (vendor 0).isNetworkFailure = true →
      (vendor 1).isNetworkFailure = true →
      (submitToStannpRetry vendor).timeouts = [30, 45, 60] ∧
      (submitToStannpRetry vendor).waits = [5, 10]) ∧
    (∀ (vendor : Nat → AttemptOutcome) (status : Nat) (text : String)
        (rid rpdf : Option String),
      vendor 0 = .httpResp status text rid rpdf → status ≠ 200 →
      (submitToStannpRetry vendor).timeouts = [30] ∧
      (submitToStannpRetry vendor).result =
        .error ("Stannp submission failed: " ++ toString status ++ " - " ++ text)) ∧
    (∀ (vendor : Nat → AttemptOutcome) (e0 e1 e2 : String),
      vendor 0 = .timeout e0 → vendor 1 = .timeout e1 → vendor 2 = .timeout e2 →
      (submitToStannpRetry vendor).timeouts = [30, 45, 60] ∧
      (submitToStannpRetry vendor).waits = [5, 10] ∧
      (submitToStannpRetry vendor).result =
        .error ("Stannp API timeout after 3 attempts: " ++ e2)) := by
  refine ⟨?_, ?_, ?_, ?_, ?_⟩
  · intro vendor h0
    rcases hv : vendor 0 with e | e | ⟨s, t, rid, rpdf⟩ | e
    · rw [hv] at h0; simp [AttemptOutcome.isNetworkFailure] at h0
    · rw [hv] at h0; simp [AttemptOutcome.isNetworkFailure] at h0
    · by_cases hs : s = 200 <;>
        simp [submitToStannpRetry, stannpRetryLoop, hv, hs]
    · simp [submitToStannpRetry, stannpRetryLoop, hv]
  · intro vendor h0 h1
    rcases hv0 : vendor 0 with e | e | ⟨s, t, rid, rpdf⟩ | e
    case httpResp => rw [hv0] at h0; simp [AttemptOutcome.isNetworkFailure] at h0
    case otherError => rw [hv0] at h0; simp [AttemptOutcome.isNetworkFailure] at h0
    all_goals
      rcases hv1 : vendor 1 with f | f | ⟨s1, t1, rid1, rpdf1⟩ | f
    case timeout.timeout => rw [hv1] at h1; simp [AttemptOutcome.isNetworkFailure] at h1
    case timeout.connError => rw [hv1] at h1; simp [AttemptOutcome.isNetworkFailure] at h1
    case connError.timeout => rw [hv1] at h1; simp [AttemptOutcome.isNetworkFailure] at h1
    case connError.connError => rw [hv1] at h1; simp [AttemptOutcome.isNetworkFailure] at h1
    all_goals
      first
      | (by_cases hs : s1 = 200 <;>
          simp [submitToStannpRetry, stannpRetryLoop, hv0, hv1, hs])
      | simp [submitToStannpRetry, stannpRetryLoop, hv0, hv1]
  · intro vendor h0 h1
    rcases hv0 : vendor 0 with e | e | ⟨s, t, rid, rpdf⟩ | e
    case httpResp => rw [hv0] at h0; simp [AttemptOutcome.isNetworkFailure] at h0
    case otherError => rw [hv0] at h0; simp [AttemptOutcome.isNetworkFailure] at h0
    all_goals
      rcases hv1 : vendor 1 with f | f | ⟨s1, t1, rid1, rpdf1⟩ | f
    case timeout.httpResp => rw [hv1] at h1; simp [AttemptOutcome.isNetworkFailure] at h1
    case timeout.otherError => rw [hv1] at h1; simp [AttemptOutcome.isNetworkFailure] at h1
    case connError.httpResp => rw [hv1] at h1; simp [AttemptOutcome.isNetworkFailure] at h1
    case connError.otherError => rw [hv1] at h1; simp [AttemptOutcome.isNetworkFailure] at h1
    all_goals
      rcases hv2 : vendor 2 with g | g | ⟨s2, t2, rid2, rpdf2⟩ | g
    all_goals
      first
      | (by_cases hs : s2 = 200 <;>
          simp [submitToStannpRetry, stannpRetryLoop, hv0, hv1, hv2, hs])
      | simp [submitToStannpRetry, stannpRetryLoop, hv0, hv1, hv2]
  · intro vendor s t rid rpdf hv0 hs
    simp [submitToStannpRetry, stannpRetryLoop, hv0, hs]
  · intro vendor e0 e1 e2 hv0 hv1 hv2
    simp [submitToStannpRetry, stannpRetryLoop, hv0, hv1, hv2]

/-- C3 witness: three consecutive timeouts produce exactly the attempts
30s, 45s, 60s with waits 5s, 10s and a terminal error. -/
theorem stannp_retry_policy_witness :
    ((fun _ => AttemptOutcome.timeout "t") 0 = AttemptOutcome.timeout "t") ∧
    (submitToStannpRetry (fun _ => AttemptOutcome.timeout "t")).timeouts =
      [30, 45, 60] ∧
    (submitToStannpRetry (fun _ => AttemptOutcome.timeout "t")).waits = [5, 10] ∧
    (submitToStannpRetry (fun _ => AttemptOutcome.timeout "t")).result =
      .error "Stannp API timeout after 3 attempts: t" := by
  have h := stannp_retry_policy.2.2.2.2 (fun _ => AttemptOutcome.timeout "t")
    "t" "t" "t" rfl rfl rfl
  exact ⟨rfl, h.1, h.2.1, h.2.2⟩

/-- C9: promo-code validation normalizes the code with `strip().upper()`;
for a locally stored active code whose `expires_at` is strictly in the
past it returns invalid with the expiry reason regardless of the
redemption count; and when neither expiry nor the redemption cap rejects
the code it returns valid with the owning campaign discount percent. -/
theorem promo_validate_expiry_and_discount :
    ∀ (db : CouponDb) (stripeFallback : String → ValidateResult) (now : Nat)
      (rawCode : String) (c : CouponCodeRow),
      db.coupons.find?
          (fun cc => cc.code = pyUpper (pyStrip rawCode) ∧ cc.isActive) =
        some c →
      pyUpper (pyStrip rawCode) ≠ "" →
      ((∀ e, c.expiresAt = some e → e < now →
        validatePromoCode (some db) stripeFallback now rawCode =
          .invalid "This promo code has expired") ∧
       (c.expiresAt.all (fun e => now ≤ e) →
        c.timesRedeemed < c.maxRedemptions →
        ∀ camp, db.campaigns.find?
            (fun k => k.campaignId = c.campaignId) = some camp →
          validatePromoCode (some db) stripeFallback now rawCode =
            .valid (pyUpper (pyStrip rawCode)) camp.discountPercent
              ("Promo code applied! " ++ toString camp.discountPercent ++
               "% off your postcard.")
              (c.maxRedemptions - c.timesRedeemed))) := by
  intro db stripeFallback now rawCode c hfind hne
  constructor
  · intro e he hlt
    simp only [validatePromoCode, if_neg hne, hfind, he]
    simp [hlt]
  · intro hexp hcap camp hcamp
    simp only [validatePromoCode, if_neg hne, hfind, hcamp]
    rcases he : c.expiresAt with _ | e
    · simp [he, Nat.not_le.mpr, hcap, Nat.not_le_of_lt hcap]
    · rw [he] at hexp
      simp only [Option.all_some] at hexp
      have : ¬ e < now := Nat.not_lt.mpr (by simpa using hexp)
      simp [he, this, Nat.not_le_of_lt hcap]

/-- C9 witness: an expired stored code `FREEJAN` (expiry 100, now 200,
0 of 500 redemptions used) is rejected as expired even though redemptions
remain, from the lowercase input `" freejan "`; the unexpired code
`FREEFEB` validates with its campaign discount of 100. -/
theorem promo_validate_expiry_and_discount_witness :
    ([⟨1, 7, "FREEJAN", 500, 0, some 100, true⟩] :
        List CouponCodeRow).find?
        (fun cc => cc.code = pyUpper (pyStrip " freejan ") ∧ cc.isActive) =
      some ⟨1, 7, "FREEJAN", 500, 0, some 100, true⟩ ∧
    pyUpper (pyStrip " freejan ") ≠ "" ∧
    validatePromoCode
        (some ⟨[⟨1, 7, "FREEJAN", 500, 0, some 100, true⟩],
               [⟨7, 100⟩]⟩)
        (fun _ => .invalid "Invalid promo code") 200 " freejan " =
      .invalid "This promo code has expired" ∧
    validatePromoCode
        (some ⟨[⟨2, 7, "FREEFEB", 500, 3, some 900, true⟩],
               [⟨7, 100⟩]⟩)
        (fun _ => .invalid "Invalid promo code") 200 "freefeb" =
      .valid "FREEFEB" 100 "Promo code applied! 100% off your postcard." 497 := by
  refine ⟨by decide, by decide, ?_, ?_⟩
  · exact (promo_validate_expiry_and_discount
      ⟨[⟨1, 7, "FREEJAN", 500, 0, some 100, true⟩], [⟨7, 100⟩]⟩
      (fun _ => .invalid "Invalid promo code") 200 " freejan "
      ⟨1, 7, "FREEJAN", 500, 0, some 100, true⟩ (by decide) (by decide)).1
      100 rfl (by decide)
  · exact (promo_validate_expiry_and_discount
      ⟨[⟨2, 7, "FREEFEB", 500, 3, some 900, true⟩], [⟨7, 100⟩]⟩
      (fun _ => .invalid "Invalid promo code") 200 "freefeb"
      ⟨2, 7, "FREEFEB", 500, 3, some 900, true⟩ (by decide) (by decide)).2
      (by decide) (by decide) ⟨7, 100⟩ (by decide)

/-- C1 (code bug): calling `/submit-to-stannp` on a transaction whose
status is `ready_for_payment` does raise an error (HTTP 500, detail from
the 400 guard), but it does NOT leave the stored status unchanged: the
endpoint `except Exception` handler catches its own `HTTPException` and
sets the stored status to `"failed"`. -/
theorem submit_guard_mutates_status_to_failed :
    (storeFind
        (submitToStannpEndpoint true (some "production") vendorAlwaysOk
          [("T1", txnReadyForPayment)] "T1").1 "T1").map Txn.status =
      some "failed" ∧
    (submitToStannpEndpoint true (some "production") vendorAlwaysOk
        [("T1", txnReadyForPayment)] "T1").2 =
      .httpError 500 "400: Payment not confirmed" ∧
    txnReadyForPayment.status = "ready_for_payment" ∧
    ("failed" : String) ≠ "ready_for_payment" := by
  refine ⟨?_, rfl, rfl, by decide⟩
  rfl

/-- C2 (code bug): a transaction whose stored customer email is
`alice@example.com` loses it when `/process-free-postcard` runs with an
empty `userEmail`: the generation step preserves the sticky email, but
main.py line 2573 then overwrites it with
`request.userEmail or ""`, i.e. with the empty string. -/
theorem free_postcard_overwrites_sticky_email :
    (storeFind [("T1", txnReadyForPayment)] "T1").map Txn.userEmail =
      some "alice@example.com" ∧
    (storeFind
        (processFreePostcardStore true (some "development") vendorAlwaysOk
          [("T1", txnReadyForPayment)] "T1" ""
          "https://img.example/front2.jpg" "https://img.example/back2.jpg"
          sampleRecipient "Happy birthday" "regular"
          "2026-02-01T00:00:00").1 "T1").map Txn.userEmail = some "" ∧
    some ("alice@example.com" : String) ≠ some ("" : String) := by
  refine ⟨rfl, ?_, by decide⟩
  rfl

/-- C4 counterexample: the payload built by the database-backed submission
path (`submit_to_stannp_with_transaction_data`) carries `test = "true"`
even when the environment is production, where the claim requires
`"false"`. -/
theorem service_payload_ignores_production_env :
    specTestFlag (some "production") = "false" ∧
    (buildServiceStannpData sampleTransactionRecord).test = "true" ∧
    ("true" : String) ≠ "false" :=
  ⟨by decide, rfl, by decide⟩

/-- C4 (amended): the payload built by the main submission path
(`submit_to_stannp_api`) derives its test-mode field from the environment,
`"false"` exactly when the environment is production; the payload built by
the database-backed path (`submit_to_stannp_with_transaction_data`)
hardcodes `"true"` regardless of the environment. -/
theorem stannp_payload_test_flag :
    (∀ (environment : Option String) (txn : Txn) (payload : StannpPayload),
      buildStannpPayload true environment txn = .ok payload →
      payload.test = specTestFlag environment) ∧
    (∀ rec : PostcardTransactionRecord,
      (buildServiceStannpData rec).test = "true") := by
  constructor
  · intro env txn payload h
    unfold buildStannpPayload at h
    simp only [Bind.bind, Except.bind, pure, Except.pure, throw,
      throwThe, MonadExceptOf.throw] at h
    split at h
    · simp at h
    · split at h
      · cases h
      · split at h
        · split at h
          · cases h
          · cases h
            simp only [specTestFlag]
            by_cases hprod : pyLower (env.getD "development") = "production" <;>
              simp [hprod]
        · cases h
          simp only [specTestFlag]
          by_cases hprod : pyLower (env.getD "development") = "production" <;>
            simp [hprod]
  · intro rec
    rfl

/-- C4 witness: in production, the main-path payload for
`txnReadyForPayment` is built with `test = "false"`. -/
theorem stannp_payload_test_flag_witness :
    buildStannpPayload true (some "production") txnReadyForPayment =
      .ok prodPayload ∧
    prodPayload.test = specTestFlag (some "production") :=
  ⟨by rfl,
   stannp_payload_test_flag.1 (some "production") txnReadyForPayment
     prodPayload (by rfl)⟩

/-- `_apply_four_quarters` succeeds only with canvas-sized output. -/
theorem applyFourQuarters_ok_dims (size : Nat × Nat)
    (env : String → Option (Nat × Nat)) (urls : List String) (img : PImage)
    (h : applyFourQuarters size env urls = .ok img) :
    img.width = size.1 ∧ img.height = size.2 := by
  unfold applyFourQuarters at h
  split at h
  · exact absurd h (by simp)
  · cases h; exact ⟨rfl, rfl⟩

/-- `_apply_five_collage` succeeds only with canvas-sized output. -/
theorem applyFiveCollage_ok_dims (size : Nat × Nat)
    (env : String → Option (Nat × Nat)) (urls : List String) (img : PImage)
    (h : applyFiveCollage size env urls = .ok img) :
    img.width = size.1 ∧ img.height = size.2 := by
  unfold applyFiveCollage at h
  split at h
  · exact absurd h (by simp)
  · split at h
    · cases h; exact ⟨rfl, rfl⟩
    · exact absurd h (by simp)

/-- `_apply_six_grid` succeeds only with canvas-sized output. -/
theorem applySixGrid_ok_dims (size : Nat × Nat)
    (env : String → Option (Nat × Nat)) (urls : List String) (img : PImage)
    (h : applySixGrid size env urls = .ok img) :
    img.width = size.1 ∧ img.height = size.2 := by
  unfold applySixGrid at h
  split at h
  · exact absurd h (by simp)
  · cases h; exact ⟨rfl, rfl⟩

/-- The `apply_template` dispatch, `single` branch. -/
theorem applyTemplate_single_eq (size : Nat × Nat)
    (env : String → Option (Nat × Nat)) (urls : List String) :
    applyTemplate size env "single" urls =
      if h : urls.length < 1 then .error "Single template requires 1 image"
      else .ok (applySinglePhoto size env urls[0]) := rfl

/-- The `apply_template` dispatch, `two_side_by_side` branch. -/
theorem applyTemplate_twoSideBySide_eq (size : Nat × Nat)
    (env : String → Option (Nat × Nat)) (urls : List String) :
    applyTemplate size env "two_side_by_side" urls =
      if h : urls.length < 2 then
        .error "Two side-by-side template requires 2 images"
      else .ok (applyTwoSideBySide size env urls[0] urls[1]) := rfl

/-- The `apply_template` dispatch, `three_photos` branch. -/
theorem applyTemplate_threePhotos_eq (size : Nat × Nat)
    (env : String → Option (Nat × Nat)) (urls : List String) :
    applyTemplate size env "three_photos" urls =
      if h : urls.length < 3 then
        .error "Three photos template requires 3 images"
      else .ok (applyThreePhotos size env urls[0] urls[1] urls[2]) := rfl

/-- The `apply_template` dispatch reaches the four-quarters branch after
its own photo-count guard. -/
theorem applyTemplate_four_quarters_eq (size : Nat × Nat)
    (env : String → Option (Nat × Nat)) (urls : List String) :
    applyTemplate size env "four_quarters" urls =
      if urls.length < 4 then
        .error "Four quarters template requires 4 images"
      else applyFourQuarters size env urls := rfl

/-- The `apply_template` dispatch, `two_vertical` branch. -/
theorem applyTemplate_twoVertical_eq (size : Nat × Nat)
    (env : String → Option (Nat × Nat)) (urls : List String) :
    applyTemplate size env "two_vertical" urls =
      if h : urls.length < 2 then
        .error "Two vertical template requires 2 images"
      else .ok (applyTwoVertical size env urls[0] urls[1]) := rfl

/-- The `apply_template` dispatch, `five_collage` branch. -/
theorem applyTemplate_fiveCollage_eq (size : Nat × Nat)
    (env : String → Option (Nat × Nat)) (urls : List String) :
    applyTemplate size env "five_collage" urls =
      if urls.length < 5 then
        .error "Five collage template requires 5 images"
      else applyFiveCollage size env urls := rfl

/-- The `apply_template` dispatch, `six_grid` branch. -/
theorem applyTemplate_sixGrid_eq (size : Nat × Nat)
    (env : String → Option (Nat × Nat)) (urls : List String) :
    applyTemplate size env "six_grid" urls =
      if urls.length < 6 then
        .error "Six grid template requires 6 images"
      else applySixGrid size env urls := rfl

/-- The `apply_template` dispatch, `three_horizontal` branch. -/
theorem applyTemplate_threeHorizontal_eq (size : Nat × Nat)
    (env : String → Option (Nat × Nat)) (urls : List String) :
    applyTemplate size env "three_horizontal" urls =
      if h : urls.length < 3 then
        .error "Three horizontal template requires 3 images"
      else .ok (applyThreeHorizontal size env urls[0] urls[1] urls[2]) := rfl

/-- The `apply_template` dispatch, `three_bookmarks` branch. -/
theorem applyTemplate_threeBookmarks_eq (size : Nat × Nat)
    (env : String → Option (Nat × Nat)) (urls : List String) :
    applyTemplate size env "three_bookmarks" urls =
      if h : urls.length < 3 then
        .error "Three bookmarks template requires 3 images"
      else .ok (applyThreeBookmarks size env urls[0] urls[1] urls[2]) := rfl

/-- The `apply_template` dispatch, `three_sideways` branch. -/
theorem applyTemplate_threeSideways_eq (size : Nat × Nat)
    (env : String → Option (Nat × Nat)) (urls : List String) :
    applyTemplate size env "three_sideways" urls =
      if h : urls.length < 3 then
        .error "Three sideways template requires 3 images"
      else .ok (applyThreeSideways size env urls[0] urls[1] urls[2]) := rfl

/-- The `apply_template` dispatch, unknown-type fallback branch. -/
theorem applyTemplate_unknown_eq (size : Nat × Nat)
    (env : String → Option (Nat × Nat)) (templateType : String)
    (urls : List String) (h : templateType ∉ knownTemplateTypes) :
    applyTemplate size env templateType urls =
      match urls with
      | [] => .error "IndexError: list index out of range"
      | u :: _ => .ok (applySinglePhoto size env u) := by
  simp only [knownTemplateTypes, List.mem_cons, List.not_mem_nil,
    or_false, not_or] at h
  obtain ⟨h1, h2, h3, h4, h5, h6, h7, h8, h9, h10⟩ := h
  delta applyTemplate
  rw [if_neg h1, if_neg h2, if_neg h3, if_neg h4, if_neg h5, if_neg h6,
    if_neg h7, if_neg h8, if_neg h9, if_neg h10]

/-- Every successful `apply_template` composite has exactly the engine
canvas dimensions, whatever the template, photo list, or photo loads. -/
theorem applyTemplate_ok_dims (size : Nat × Nat)
    (env : String → Option (Nat × Nat)) (templateType : String)
    (urls : List String) (img : PImage)
    (h : applyTemplate size env templateType urls = .ok img) :
    img.width = size.1 ∧ img.height = size.2 := by
  by_cases e1 : templateType = "single"
  · subst e1
    rw [applyTemplate_single_eq] at h
    split at h
    · exact absurd h (by simp)
    · cases h; exact ⟨rfl, rfl⟩
  by_cases e2 : templateType = "two_side_by_side"
  · subst e2
    rw [applyTemplate_twoSideBySide_eq] at h
    split at h
    · exact absurd h (by simp)
    · cases h; exact ⟨rfl, rfl⟩
  by_cases e3 : templateType = "three_photos"
  · subst e3
    rw [applyTemplate_threePhotos_eq] at h
    split at h
    · exact absurd h (by simp)
    · cases h; exact ⟨rfl, rfl⟩
  by_cases e4 : templateType = "four_quarters"
  · subst e4
    rw [applyTemplate_four_quarters_eq] at h
    split at h
    · exact absurd h (by simp)
    · exact applyFourQuarters_ok_dims _ _ _ _ h
  by_cases e5 : templateType = "two_vertical"
  · subst e5
    rw [applyTemplate_twoVertical_eq] at h
    split at h
    · exact absurd h (by simp)
    · cases h; exact ⟨rfl, rfl⟩
  by_cases e6 : templateType = "five_collage"
  · subst e6
    rw [applyTemplate_fiveCollage_eq] at h
    split at h
    · exact absurd h (by simp)
    · exact applyFiveCollage_ok_dims _ _ _ _ h
  by_cases e7 : templateType = "six_grid"
  · subst e7
    rw [applyTemplate_sixGrid_eq] at h
    split at h
    · exact absurd h (by simp)
    · exact applySixGrid_ok_dims _ _ _ _ h
  by_cases e8 : templateType = "three_horizontal"
  · subst e8
    rw [applyTemplate_threeHorizontal_eq] at h
    split at h
    · exact absurd h (by simp)
    · cases h; exact ⟨rfl, rfl⟩
  by_cases e9 : templateType = "three_bookmarks"
  · subst e9
    rw [applyTemplate_threeBookmarks_eq] at h
    split at h
    · exact absurd h (by simp)
    · cases h; exact ⟨rfl, rfl⟩
  by_cases e10 : templateType = "three_sideways"
  · subst e10
    rw [applyTemplate_threeSideways_eq] at h
    split at h
    · exact absurd h (by simp)
    · cases h; exact ⟨rfl, rfl⟩
  have hu : templateType ∉ knownTemplateTypes := by
    simp [knownTemplateTypes, e1, e2, e3, e4, e5, e6, e7, e8, e9, e10]
  rw [applyTemplate_unknown_eq _ _ _ _ hu] at h
  split at h
  · exact absurd h (by simp)
  · cases h; exact ⟨rfl, rfl⟩

/-- C6: the four-quarters layout errors whenever fewer than 4 photo
references are supplied; with 4 or more it succeeds and composites exactly
the first 4 references, in order, ignoring the rest. -/
theorem four_quarters_photo_count :
    ∀ (size : Nat × Nat) (env : String → Option (Nat × Nat))
      (urls : List String),
      (urls.length < 4 →
        applyTemplate size env "four_quarters" urls =
          .error "Four quarters template requires 4 images") ∧
      (4 ≤ urls.length →
        (applyTemplate size env "four_quarters" urls).toOption.map
            PImage.overlayUrls =
          some (urls.take 4)) := by
  intro size env urls
  constructor
  · intro h
    rw [applyTemplate_four_quarters_eq, if_pos h]
  · intro h4
    match urls, h4 with
    | u0 :: u1 :: u2 :: u3 :: rest, _ =>
      have hlen : ¬ (u0 :: u1 :: u2 :: u3 :: rest).length < 4 := by
        simp
      rw [applyTemplate_four_quarters_eq, if_neg hlen]
      unfold applyFourQuarters
      rw [if_neg hlen]
      simp [PImage.overlayUrls, PImage.srcUrl, resizeAndCrop,
        loadImageFromUrl, Except.toOption]

/-- C6 witness: with 3 references the four-quarters layout raises the
validation error; with 5 it composites exactly the first 4. -/
theorem four_quarters_photo_count_witness :
    (["a", "b", "c"] : List String).length < 4 ∧
    applyTemplate (engineSize "xl") (fun _ => some (4000, 3000))
        "four_quarters" ["a", "b", "c"] =
      .error "Four quarters template requires 4 images" ∧
    4 ≤ (["a", "b", "c", "d", "e"] : List String).length ∧
    (applyTemplate (engineSize "xl") (fun _ => some (4000, 3000))
        "four_quarters" ["a", "b", "c", "d", "e"]).toOption.map
        PImage.overlayUrls =
      some ["a", "b", "c", "d"] :=
  ⟨by decide,
   (four_quarters_photo_count (engineSize "xl") (fun _ => some (4000, 3000))
     ["a", "b", "c"]).1 (by decide),
   by decide,
   (four_quarters_photo_count (engineSize "xl") (fun _ => some (4000, 3000))
     ["a", "b", "c", "d", "e"]).2 (by decide)⟩

/-- C7 counterexample: with an unknown template type and an empty
photo-reference list, `apply_template` does raise to the caller
(`image_urls[0]` raises `IndexError`), contradicting the claim that the
fallback never raises for any supplied list. -/
theorem unknown_template_empty_list_raises :
    applyTemplate (engineSize "xl") (fun _ => none) "bogus" [] =
      .error "IndexError: list index out of range" := by
  rfl

/-- C7 (amended): for every template type outside the known set and every
NON-EMPTY photo-reference list, `apply_template` falls back to the
single-photo layout on the first reference and does not raise; on an empty
list the fallback indexing raises `IndexError`. -/
theorem unknown_template_falls_back_to_single :
    ∀ (size : Nat × Nat) (env : String → Option (Nat × Nat))
      (templateType : String) (u : String) (rest : List String),
      templateType ∉ knownTemplateTypes →
      applyTemplate size env templateType (u :: rest) =
        .ok (applySinglePhoto size env u) := by
  intro size env templateType u rest h
  rw [applyTemplate_unknown_eq size env templateType (u :: rest) h]

/-- C7 witness: the unknown type `polaroid` with one reference falls back
to the single-photo layout on that reference. -/
theorem unknown_template_falls_back_to_single_witness :
    ("polaroid" ∉ knownTemplateTypes) ∧
    applyTemplate (engineSize "regular") (fun _ => some (800, 600))
        "polaroid" ["x"] =
      .ok (applySinglePhoto (engineSize "regular") (fun _ => some (800, 600))
        "x") :=
  ⟨by decide,
   unknown_template_falls_back_to_single (engineSize "regular")
     (fun _ => some (800, 600)) "polaroid" "x" [] (by decide)⟩

/-- C8 counterexample: for an `xl` generate request the back canvas is
2754x1872 while a successful front composite is 2700x1800 — the two faces
do not have the same pixel dimensions. -/
theorem front_back_dims_disagree_for_xl :
    (applyTemplate (engineSize "xl") (fun _ => some (4000, 3000))
        "four_quarters" ["a", "b", "c", "d"]).toOption.map
        (fun img => (img.width, img.height)) =
      some (2700, 1800) ∧
    backCanvasDims "xl" = (2754, 1872) ∧
    some ((2700 : Nat), (1800 : Nat)) ≠ some ((2754 : Nat), (1872 : Nat)) :=
  ⟨rfl, rfl, by decide⟩

/-- C8 (amended): each face resolution is a fixed function of the size
class alone; for `regular` the front and back agree at 1800x1200, but for
`xl` every successful front composite is 2700x1800 while the back canvas
is 2754x1872, so the two faces disagree. -/
theorem face_dims_fixed_per_size_class :
    (∀ (env : String → Option (Nat × Nat)) (templateType : String)
        (urls : List String) (img : PImage),
      applyTemplate (engineSize "regular") env templateType urls = .ok img →
      (img.width, img.height) = backCanvasDims "regular") ∧
    (∀ (env : String → Option (Nat × Nat)) (templateType : String)
        (urls : List String) (img : PImage),
      applyTemplate (engineSize "xl") env templateType urls = .ok img →
      (img.width, img.height) = (2700, 1800)) ∧
    backCanvasDims "xl" = (2754, 1872) ∧
    ((2700 : Nat), (1800 : Nat)) ≠ backCanvasDims "xl" := by
  refine ⟨?_, ?_, rfl, by decide⟩
  · intro env templateType urls img h
    obtain ⟨hw, hh⟩ := applyTemplate_ok_dims _ _ _ _ _ h
    simp [engineSize, backCanvasDims] at hw hh ⊢
    exact ⟨hw, hh⟩
  · intro env templateType urls img h
    obtain ⟨hw, hh⟩ := applyTemplate_ok_dims _ _ _ _ _ h
    simp [engineSize] at hw hh ⊢
    exact ⟨hw, hh⟩

/-- C8 witness: a concrete regular-size single-photo composite measures
1800x1200, the regular back canvas size. -/
theorem face_dims_fixed_per_size_class_witness :
    applyTemplate (engineSize "regular") (fun _ => some (800, 600)) "single"
        ["x"] =
      .ok (applySinglePhoto (engineSize "regular") (fun _ => some (800, 600))
        "x") ∧
    ((applySinglePhoto (engineSize "regular") (fun _ => some (800, 600))
        "x").width,
     (applySinglePhoto (engineSize "regular") (fun _ => some (800, 600))
        "x").height) = backCanvasDims "regular" :=
  ⟨by rfl,
   face_dims_fixed_per_size_class.1 (fun _ => some (800, 600)) "single" ["x"]
     (applySinglePhoto (engineSize "regular") (fun _ => some (800, 600)) "x")
     (by rfl)⟩

end XLPostcards
